import Mathlib

/-!
A shallow embedding, in Lean 4, of the content pipeline of `main.py`
(arXiv-paper-to-narrated-video bot).

Pure string manipulation (filename sanitization, prompt building,
outline parsing, truncation) is translated function by function.
Remote services (Gemini, the VOICEVOX speech engine, HTTP transport,
the PDF parser) are modelled as explicit functional parameters, and
the effects the program performs against them (endpoint calls, file
writes) are returned as explicit event/path lists so that claims about
"which calls happen" and "which paths are written" become statements
about those lists.
-/

/- ================================================================
   safe_filename  (main.py lines 30-32)

   def safe_filename(name: str) -> str:
       name = re.sub(r'[<>:"/\\|?*\r\n]', "_", name)
       return re.sub(r"_+", "_", name).strip("_")
   ================================================================ -/

/-- The character class of `re.sub(r'[<>:"/\\|?*\r\n]', "_", name)`. -/
def is_bad_char (c : Char) : Bool :=
  c = '<' || c = '>' || c = ':' || c = '"' || c = '/' || c = '\\' ||
  c = '|' || c = '?' || c = '*' || c = '\r' || c = '\n'

/-- First substitution: every character of the class is replaced by `'_'`. -/
def replace_bad (l : List Char) : List Char :=
  l.map (fun c => if is_bad_char c then '_' else c)

/-- Second substitution `re.sub(r"_+", "_", name)`: every maximal run of underscores is
collapsed to a single underscore.  (Of two adjacent underscores the first
is dropped, so a run of k underscores leaves exactly one.) -/
def squeeze : List Char → List Char
  | [] => []
  | [c] => [c]
  | a :: b :: rest =>
    if a = '_' && b = '_' then squeeze (b :: rest)
    else a :: squeeze (b :: rest)

/-- Python `str.strip(chars)` in general: drop the characters satisfying
`p` from both ends. -/
def strip_ends (p : Char → Bool) (l : List Char) : List Char :=
  ((l.dropWhile p).reverse.dropWhile p).reverse

/-- Final step `.strip("_")`: all leading and all trailing underscores are removed. -/
def strip_us (l : List Char) : List Char :=
  strip_ends (fun c => c = '_') l

/-- Function `safe_filename` from main.py. -/
def safe_filename (s : String) : String :=
  String.mk (strip_us (squeeze (replace_bad s.data)))

/- ================================================================
   Python `str.strip()` (no argument): removes leading and trailing
   whitespace.  Used by summarize_text_ja and build_slide_structure.
   ================================================================ -/

/-- Strip leading and trailing whitespace from a character list. -/
def strip_ws (l : List Char) : List Char :=
  strip_ends Char.isWhitespace l

/-- Python `s.strip()`. -/
def pyStrip (s : String) : String :=
  String.mk (strip_ws s.data)

/-- Returns `true` when the list is empty or its first character fails `p`. -/
def head_fails (p : Char → Bool) : List Char → Bool
  | [] => true
  | c :: _ => !p c

/-- A string is stripped when neither its first nor its last character is
whitespace (vacuously for the empty string). -/
def head_not_ws (l : List Char) : Bool :=
  head_fails Char.isWhitespace l

/-- Boolean test that a string has no leading and no trailing whitespace. -/
def is_stripped (s : String) : Bool :=
  head_not_ws s.data && head_not_ws s.data.reverse

-- quick sanity checks of the embedding on concrete values
example : safe_filename "A/B: Test?" = "A_B_ Test" := by decide
example : pyStrip "  x y\n" = "x y" := by decide

/- ================================================================
   summarize_text_ja  (main.py lines 82-93)

   def summarize_text_ja(text):
       MAX_CHARS = 5000
       if len(text) > MAX_CHARS:
           text = text[:MAX_CHARS]
       prompt = f"""\n以下の...{text}\n"""
       response = model.generate_content(prompt)
       return response.text.strip()

   The Gemini client (`model.generate_content(...).text`) is modelled as
   an explicit function `gen : String → String` from the submitted
   prompt to the returned text.
   ================================================================ -/

/-- Truncation `text[:5000]`, applied when `len(text) > 5000`. -/
def truncate_input (text : String) : String :=
  if text.length > 5000 then String.mk (text.data.take 5000) else text

/-- The f-string prompt of `summarize_text_ja` around the (possibly
truncated) paper text. -/
def summary_prompt (text : String) : String :=
  "\n以下の英語論文の内容を、日本語で簡潔に3点に要約してください。\n\n" ++ text ++ "\n"

/-- Function `summarize_text_ja` from main.py, with the generative service as a
functional parameter. -/
def summarize_text_ja (gen : String → String) (text : String) : String :=
  pyStrip (gen (summary_prompt (truncate_input text)))

/- ================================================================
   build_slide_structure  (main.py lines 136-159)

   res = model.generate_content(prompt).text
   slides = {}
   for line in res.split("\n"):
       if ":" in line:
           key, val = line.split(":", 1)
           slides[key.strip()] = val.strip()
   return slides
   ================================================================ -/

/-- Python `res.split("\n")` on the underlying character list. -/
def split_on_nl : List Char → List (List Char)
  | [] => [[]]
  | c :: cs =>
    if c = '\n' then [] :: split_on_nl cs
    else
      match split_on_nl cs with
      | [] => [[c]]
      | g :: gs => (c :: g) :: gs

/-- Python `line.split(":", 1)` fused with the `":" in line` test:
`none` when the line has no colon, otherwise the segments before and
after the first colon. -/
def split_once_colon_chars : List Char → Option (List Char × List Char)
  | [] => none
  | c :: cs =>
    if c = ':' then some ([], cs)
    else
      match split_once_colon_chars cs with
      | none => none
      | some (a, b) => some (c :: a, b)

/-- String-level wrapper of `split_once_colon_chars`. -/
def split_once_colon (s : String) : Option (String × String) :=
  match split_once_colon_chars s.data with
  | none => none
  | some (a, b) => some (String.mk a, String.mk b)

/-- Python dict assignment `slides[k] = v` on an insertion-ordered
association list: an existing binding of `k` is overwritten in place,
a new key is appended at the end. -/
def insertAssoc (m : List (String × String)) (k v : String) : List (String × String) :=
  match m with
  | [] => [(k, v)]
  | (k0, v0) :: rest =>
    if k0 = k then (k, v) :: rest else (k0, v0) :: insertAssoc rest k v

/-- Python dict lookup `m[k]` (as an option; `m.get(k, d)` is
`(lookupAssoc m k).getD d`). -/
def lookupAssoc (m : List (String × String)) (k : String) : Option String :=
  match m with
  | [] => none
  | (k0, v0) :: rest => if k0 = k then some v0 else lookupAssoc rest k

/-- The body of the `for line in res.split("\n")` loop: one line updates
the `slides` dict only when it contains a colon. -/
def process_line (slides : List (String × String)) (line : String) :
    List (String × String) :=
  match split_once_colon line with
  | none => slides
  | some (k, v) => insertAssoc slides (pyStrip k) (pyStrip v)

/-- The whole parsing loop of `build_slide_structure` applied to the
generative-service response text. -/
def parse_slide_response (res : String) : List (String × String) :=
  ((split_on_nl res.data).map String.mk).foldl process_line []

/-- The f-string prompt of `build_slide_structure`. -/
def slide_prompt (title summary : String) : String :=
  "\n次の論文について、動画用5スライドに整理してください：\n\n1. TITLE\n2. PURPOSE\n3. METHOD\n4. RESULT\n5. CONCLUSION\n\nタイトル:\n" ++
  title ++ "\n\n要約:\n" ++ summary ++ "\n"

/-- Function `build_slide_structure` from main.py, with the generative service as
a functional parameter. -/
def build_slide_structure (gen : String → String) (title summary : String) :
    List (String × String) :=
  parse_slide_response (gen (slide_prompt title summary))

example : parse_slide_response "TITLE: t\nno separator\nMETHOD: old\nMETHOD: uses X" =
    [("TITLE", "t"), ("METHOD", "uses X")] := by decide

/- ================================================================
   get_speaker_id / voicevox_tts  (main.py lines 98-131)

   The VOICEVOX speaker catalog (the JSON of GET /speakers) is passed
   in as data; the two endpoint calls the function performs
   (POST /audio_query, POST /synthesis) are returned as an event list,
   empty when the function raises before reaching them.
   ================================================================ -/

/-- One entry of a speaker's `styles` array. -/
structure VoiceStyle where
  styleName : String
  styleId : Nat
deriving DecidableEq

/-- One entry of the `/speakers` catalog. -/
structure Speaker where
  speakerName : String
  styles : List VoiceStyle
deriving DecidableEq

/-- Inner loop of `get_speaker_id`: first style whose name matches. -/
def find_style (styles : List VoiceStyle) (style : String) : Option Nat :=
  match styles with
  | [] => none
  | st :: rest => if st.styleName = style then some st.styleId else find_style rest style

/-- Function `get_speaker_id` from main.py: scan the catalog for a speaker with
the given name, then for a style with the given name; the Python
`for` loops fall through to later speakers when the style is missing,
and return `None` when no exact name+style match exists. -/
def get_speaker_id (catalog : List Speaker) (name style : String) : Option Nat :=
  match catalog with
  | [] => none
  | sp :: rest =>
    if sp.speakerName = name then
      match find_style sp.styles style with
      | some i => some i
      | none => get_speaker_id rest name style
    else get_speaker_id rest name style

/-- The synthesis query: built by `/audio_query`, then its `speedScale`
field is overwritten with the requested speed. -/
structure AudioQuery where
  queryText : String
  querySpeaker : Nat
  speedScale : ℚ
deriving DecidableEq

/-- The remote endpoints `voicevox_tts` can hit, in call order. -/
inductive TtsEvent
  | audio_query (text : String) (speaker : Nat)
  | synthesis (speaker : Nat) (q : AudioQuery)
deriving DecidableEq

/-- Python `text.replace("**", "")` (markup-emphasis stripping). -/
def strip_double_star : List Char → List Char
  | [] => []
  | [c] => [c]
  | a :: b :: rest =>
    if a = '*' && b = '*' then strip_double_star rest
    else a :: strip_double_star (b :: rest)

/-- Function `voicevox_tts` from main.py.  In the source the voice name and style
are keyword defaults of `get_speaker_id` (`四国めたん` / `ノーマル`);
they are explicit parameters here and `main` passes those defaults.
Returns the endpoint calls performed together with either the raised
`RuntimeError` message or the written audio path. -/
def voicevox_tts (catalog : List Speaker) (name style text filename : String)
    (speed : ℚ) : List TtsEvent × Except String String :=
  match get_speaker_id catalog name style with
  | none => ([], Except.error "四国めたんが見つかりません")
  | some speaker =>
    let cleaned := String.mk (strip_double_star text.data)
    let query0 : AudioQuery :=
      { queryText := cleaned, querySpeaker := speaker, speedScale := 1 }
    let query := { query0 with speedScale := speed }
    ([TtsEvent.audio_query cleaned speaker, TtsEvent.synthesis speaker query],
     Except.ok ("outputs/" ++ filename))

example : (voicevox_tts [⟨"四国めたん", [⟨"あまあま", 0⟩]⟩] "四国めたん" "ノーマル"
    "x" "n.wav" 1).2 = Except.error "四国めたんが見つかりません" := rfl

/- ================================================================
   download_pdf  (main.py lines 52-63)

   try: res = requests.get(pdf_url, timeout=20); res.raise_for_status()
   except Exception: print(...); return None
   path = os.path.join(SAVE_DIR, filename); write res.content; return path

   `requests.get` + `raise_for_status` is modelled as
   `transport : String → Except String String`: an `error` covers any
   transport error, timeout, or non-2xx status, an `ok` carries the
   body bytes.  On failure the function returns `none` (Python `None`)
   instead of letting the exception escape.
   ================================================================ -/

/-- Function `download_pdf` from main.py. -/
def download_pdf (transport : String → Except String String)
    (pdf_url filename : String) : Option String :=
  match transport pdf_url with
  | Except.error _ => none
  | Except.ok _content => some ("outputs/" ++ filename)

/- ================================================================
   extract_text  (main.py lines 68-77)

   if not pdf_path: return ""
   try: doc = fitz.open(pdf_path); return "".join(p.get_text() ...)
   except: return ""

   The PDF engine (`fitz`) is modelled as
   `engine : String → Except String (List String)` from the path to the
   per-page texts, `error` covering any exception of the `try` block.
   The result type `String` (not an exception monad) reflects that the
   source catches every exception and never raises to its caller.
   ================================================================ -/

/-- Function `extract_text` from main.py.  The `if p = ""` branch mirrors Python
truthiness: `not pdf_path` is true for `None` and for the empty string. -/
def extract_text (pdf_path : Option String)
    (engine : String → Except String (List String)) : String :=
  match pdf_path with
  | none => ""
  | some p =>
    if p = "" then ""
    else
      match engine p with
      | Except.error _ => ""
      | Except.ok pages => String.join pages

/- ================================================================
   create_slide_image  (main.py lines 164-172)

   Fixed 1920x1080 white canvas, black multiline text at (100, 100)
   with spacing 20, saved to `filename`.  Pure description of the
   raster call; the returned record carries what the call fixes.
   ================================================================ -/

/-- The rendered slide as `create_slide_image` determines it. -/
structure SlideImage where
  width : Nat
  height : Nat
  text : String
  path : String
deriving DecidableEq

/-- Function `create_slide_image` from main.py. -/
def create_slide_image (text filename : String) : SlideImage :=
  { width := 1920, height := 1080, text := text, path := filename }

/- ================================================================
   generate_video  (main.py lines 177-184)

   clips = [ImageClip(p).set_duration(4) for p in slide_paths]
   video = concatenate_videoclips(clips)
   final = video.set_audio(AudioFileClip(audio_path))
   final.write_videofile(output_path, fps=24)

   Clips are modelled by their durations (seconds): concatenation sums
   them, `set_audio` attaches audio without changing the video
   duration, and `write_videofile` fixes fps = 24.
   ================================================================ -/

/-- One moviepy clip, by its duration in seconds. -/
structure Clip where
  duration : Nat
deriving DecidableEq

/-- Call `ImageClip(p).set_duration(d)`. -/
def image_clip_with_duration (_path : String) (d : Nat) : Clip :=
  { duration := d }

/-- Call `concatenate_videoclips`. -/
def concatenate_videoclips (clips : List Clip) : Clip :=
  { duration := (clips.map Clip.duration).sum }

/-- The written video file as `generate_video` determines it. -/
structure VideoFile where
  path : String
  duration : Nat
  fps : Nat
  audioDuration : Nat
deriving DecidableEq

/-- Function `generate_video` from main.py; `audioDuration` is the duration of
`AudioFileClip(audio_path)`, carried along untouched. -/
def generate_video (slide_paths : List String) (audioDuration : Nat)
    (output_path : String) : VideoFile :=
  let clips := slide_paths.map (fun p => image_clip_with_duration p 4)
  let video := concatenate_videoclips clips
  { path := output_path, duration := video.duration, fps := 24,
    audioDuration := audioDuration }

/- ================================================================
   Python str.replace (used for entry.id.replace("abs", "pdf")),
   fuel-structured so it reduces in the kernel; fuel = input length
   is always enough because each step consumes at least one character.
   ================================================================ -/

/-- Worker for Python `s.replace(pat, rep)`: leftmost non-overlapping
replacement of every occurrence. -/
def replace_all_aux (pat rep : List Char) : Nat → List Char → List Char
  | _, [] => []
  | 0, l => l
  | fuel + 1, c :: cs =>
    if pat.isPrefixOf (c :: cs) && !pat.isEmpty then
      rep ++ replace_all_aux pat rep fuel (cs.drop (pat.length - 1))
    else c :: replace_all_aux pat rep fuel cs

/-- Python `s.replace(pat, rep)`. -/
def pyReplace (s pat rep : String) : String :=
  String.mk (replace_all_aux pat.data rep.data s.data.length s.data)

example : pyReplace "http://arxiv.org/abs/1234" "abs" "pdf" = "http://arxiv.org/pdf/1234" := by
  decide

/- ================================================================
   main  (main.py lines 189-228)
   ================================================================ -/

/-- One arXiv feed entry as `main` uses it (`entry.title`, `entry.id`). -/
structure Paper where
  title : String
  arxivId : String
deriving DecidableEq

/-- The external collaborators `main` runs against. -/
structure Env where
  transport : String → Except String String
  engine : String → Except String (List String)
  gen : String → String
  catalog : List Speaker
  date : String

/-- Pipeline stages recorded in invocation order. -/
inductive Stage
  | download
  | extraction
  | summarization
  | outline
  | rendering (sectionKey : String)
  | narration
  | assembly
deriving DecidableEq

/-- How a run of `main` ends: early return on an empty feed, normal
completion with the video path, or an uncaught exception. -/
inductive MainOutcome
  | noWork
  | completed (videoPath : String)
  | failed (msg : String)
deriving DecidableEq

/-- The five section keys of the rendering loop, in its order. -/
def section_keys : List String :=
  ["TITLE", "PURPOSE", "METHOD", "RESULT", "CONCLUSION"]

/-- The slide image path of one section: `os.path.join(SAVE_DIR, f"{key}.png")`.
It depends on nothing but the section key. -/
def slide_image_path (key : String) : String :=
  "outputs/" ++ key ++ ".png"

/-- Locator rewrite `pdf_url = entry.id.replace("abs", "pdf") + ".pdf"`. -/
def pdf_url_of (entry : Paper) : String :=
  pyReplace entry.arxivId "abs" "pdf" ++ ".pdf"

/-- Function `main` from main.py (named `main_run` because the bare name `main`
is reserved), as a function of the feed result and the external
services.  Besides the outcome it returns the stages reached, in
order, and the file paths written, in order (the pdf only when the
download succeeded, the audio and video only when narration did not
raise). -/
def main_run (papers : List Paper) (env : Env) :
    MainOutcome × List Stage × List String :=
  match papers with
  | [] => (MainOutcome.noWork, [], [])
  | entry :: _ =>
    let filename := safe_filename entry.title
    let pdf_path := download_pdf env.transport (pdf_url_of entry) (filename ++ ".pdf")
    let text := extract_text pdf_path env.engine
    let summary := summarize_text_ja env.gen text
    let slideMap := build_slide_structure env.gen entry.title summary
    let slides := section_keys.map (fun key =>
      create_slide_image (key ++ "\n\n" ++ (lookupAssoc slideMap key).getD "")
        (slide_image_path key))
    let pdfWrites := match pdf_path with | none => [] | some p => [p]
    let stages0 := [Stage.download, Stage.extraction, Stage.summarization,
        Stage.outline] ++ section_keys.map Stage.rendering
    let writes0 := pdfWrites ++ slides.map SlideImage.path
    match voicevox_tts env.catalog "四国めたん" "ノーマル" summary
        ("narration_" ++ env.date ++ ".wav") (11 / 10 : ℚ) with
    | (_events, Except.error msg) =>
      (MainOutcome.failed msg, stages0, writes0)
    | (_events, Except.ok audioPath) =>
      let video_path := "outputs/paper_video_" ++ env.date ++ ".mp4"
      (MainOutcome.completed video_path,
       stages0 ++ [Stage.narration, Stage.assembly],
       writes0 ++ [audioPath, video_path])

/- ================================================================
   Helper lemmas: dropWhile, strip_ends, squeeze, replace_bad
   ================================================================ -/

theorem head_fails_dropWhile (p : Char → Bool) (l : List Char) :
    head_fails p (l.dropWhile p) = true := by
  induction l with
  | nil => rfl
  | cons c cs ih =>
    rw [List.dropWhile_cons]
    by_cases h : p c = true
    · simpa [h] using ih
    · simp [h, head_fails]

theorem dropWhile_of_head_fails (p : Char → Bool) (l : List Char)
    (h : head_fails p l = true) : l.dropWhile p = l := by
  cases l with
  | nil => rfl
  | cons c cs =>
    have hc : p c = false := by simpa [head_fails] using h
    simp [List.dropWhile_cons, hc]

theorem head_fails_strip_ends_rev (p : Char → Bool) (l : List Char) :
    head_fails p (strip_ends p l).reverse = true := by
  unfold strip_ends
  rw [List.reverse_reverse]
  exact head_fails_dropWhile p _

theorem head_fails_strip_ends (p : Char → Bool) (l : List Char) :
    head_fails p (strip_ends p l) = true := by
  have hA : head_fails p (l.dropWhile p) = true := head_fails_dropWhile p l
  obtain ⟨u, hu⟩ := List.dropWhile_suffix (l := (l.dropWhile p).reverse) p
  have hrev : l.dropWhile p
      = ((l.dropWhile p).reverse.dropWhile p).reverse ++ u.reverse := by
    have h2 := congrArg List.reverse hu
    simpa [List.reverse_append] using h2.symm
  unfold strip_ends
  cases hBr : ((l.dropWhile p).reverse.dropWhile p).reverse with
  | nil => simp [head_fails]
  | cons c w =>
    rw [hBr] at hrev
    rw [hrev] at hA
    simpa [head_fails] using hA

theorem strip_ends_idem (p : Char → Bool) (l : List Char) :
    strip_ends p (strip_ends p l) = strip_ends p l := by
  have h1 := head_fails_strip_ends p l
  have h2 := head_fails_strip_ends_rev p l
  show (((strip_ends p l).dropWhile p).reverse.dropWhile p).reverse = strip_ends p l
  rw [dropWhile_of_head_fails p _ h1, dropWhile_of_head_fails p _ h2,
    List.reverse_reverse]

theorem mem_dropWhile (p : Char → Bool) (c : Char) (l : List Char)
    (h : c ∈ l.dropWhile p) : c ∈ l :=
  (List.dropWhile_suffix p).sublist.subset h

theorem mem_strip_ends (p : Char → Bool) (c : Char) (l : List Char)
    (h : c ∈ strip_ends p l) : c ∈ l := by
  unfold strip_ends at h
  rw [List.mem_reverse] at h
  have h2 := mem_dropWhile _ _ _ h
  rw [List.mem_reverse] at h2
  exact mem_dropWhile _ _ _ h2

theorem chain'_suffix {R : Char → Char → Prop} (l1 l2 : List Char)
    (h : l1 <:+ l2) (hc : List.Chain' R l2) : List.Chain' R l1 := by
  obtain ⟨u, rfl⟩ := h
  exact (List.chain'_append.mp hc).2.1

theorem chain'_strip_ends {R : Char → Char → Prop}
    (hs : ∀ a b, R a b → R b a) (p : Char → Bool) (l : List Char)
    (hc : List.Chain' R l) : List.Chain' R (strip_ends p l) := by
  unfold strip_ends
  have h1 : List.Chain' R (l.dropWhile p) :=
    chain'_suffix _ _ (List.dropWhile_suffix p) hc
  have h2 : List.Chain' R (l.dropWhile p).reverse :=
    List.chain'_reverse.mpr (h1.imp (fun a b hab => hs a b hab))
  have h3 : List.Chain' R ((l.dropWhile p).reverse.dropWhile p) :=
    chain'_suffix _ _ (List.dropWhile_suffix p) h2
  exact List.chain'_reverse.mpr (h3.imp (fun a b hab => hs a b hab))

/-- Adjacency invariant of `squeeze` output: no two neighbouring
underscores. -/
def no_uu (a b : Char) : Prop := ¬(a = '_' ∧ b = '_')

theorem no_uu_symm (a b : Char) (h : no_uu a b) : no_uu b a := by
  unfold no_uu at *
  tauto

theorem squeeze_head_ne (b : Char) (rest : List Char) (hb : ¬(b = '_')) :
    (squeeze (b :: rest)).head? = some b := by
  cases rest with
  | nil => rfl
  | cons r rs => simp [squeeze, hb]

theorem chain'_squeeze (l : List Char) : List.Chain' no_uu (squeeze l) := by
  induction l using squeeze.induct with
  | case1 => simp [squeeze]
  | case2 c => simp [squeeze]
  | case3 a b rest hcond ih => simpa [squeeze, hcond] using ih
  | case4 a b rest hcond ih =>
    have heq : squeeze (a :: b :: rest) = a :: squeeze (b :: rest) := by
      simp [squeeze, hcond]
    rw [heq, List.chain'_cons']
    refine ⟨?_, ih⟩
    intro h hh
    by_cases ha : a = '_'
    · have hb : ¬(b = '_') := by
        intro hb
        rw [ha, hb] at hcond
        simp at hcond
      rw [squeeze_head_ne b rest hb] at hh
      have hhb : b = h := by simpa using hh
      subst hhb
      exact fun hand => hb hand.2
    · exact fun hand => ha hand.1

theorem squeeze_eq_of_chain' (l : List Char) (h : List.Chain' no_uu l) :
    squeeze l = l := by
  induction l using squeeze.induct with
  | case1 => rfl
  | case2 c => rfl
  | case3 a b rest hcond ih =>
    exfalso
    have hr : no_uu a b := (List.chain'_cons.mp h).1
    unfold no_uu at hr
    simp at hcond
    exact hr hcond
  | case4 a b rest hcond ih =>
    have h2 : List.Chain' no_uu (b :: rest) := (List.chain'_cons.mp h).2
    have heq : squeeze (a :: b :: rest) = a :: squeeze (b :: rest) := by
      simp [squeeze, hcond]
    rw [heq, ih h2]

theorem mem_squeeze (c : Char) (l : List Char) : c ∈ squeeze l → c ∈ l := by
  induction l using squeeze.induct with
  | case1 => exact fun h => h
  | case2 d => exact fun h => h
  | case3 a b rest hcond ih =>
    intro h
    have heq : squeeze (a :: b :: rest) = squeeze (b :: rest) := by
      simp [squeeze, hcond]
    rw [heq] at h
    exact List.mem_cons_of_mem a (ih h)
  | case4 a b rest hcond ih =>
    intro h
    have heq : squeeze (a :: b :: rest) = a :: squeeze (b :: rest) := by
      simp [squeeze, hcond]
    rw [heq] at h
    rcases List.mem_cons.mp h with h1 | h2
    · exact h1 ▸ List.mem_cons_self a (b :: rest)
    · exact List.mem_cons_of_mem a (ih h2)

theorem mem_replace_bad (c : Char) (l : List Char) (h : c ∈ replace_bad l) :
    is_bad_char c = false := by
  unfold replace_bad at h
  obtain ⟨a, _, ha⟩ := List.mem_map.mp h
  by_cases hb : is_bad_char a = true
  · rw [if_pos hb] at ha
    rw [← ha]
    decide
  · rw [if_neg hb] at ha
    rw [← ha]
    simpa using hb

theorem replace_bad_eq_self (l : List Char) (h : ∀ c ∈ l, is_bad_char c = false) :
    replace_bad l = l := by
  unfold replace_bad
  rw [List.map_congr_left (fun a ha => by simp [h a ha] : ∀ a ∈ l,
    (if is_bad_char a then '_' else a) = id a)]
  exact List.map_id l

/- ================================================================
   Lemmas about pyStrip and the association list
   ================================================================ -/

theorem is_stripped_pyStrip (s : String) : is_stripped (pyStrip s) = true := by
  have h1 := head_fails_strip_ends Char.isWhitespace s.data
  have h2 := head_fails_strip_ends_rev Char.isWhitespace s.data
  show (head_not_ws (strip_ws s.data) && head_not_ws (strip_ws s.data).reverse) = true
  unfold head_not_ws strip_ws
  rw [h1, h2]
  rfl

theorem lookup_insert (m : List (String × String)) (k v : String) :
    lookupAssoc (insertAssoc m k v) k = some v := by
  induction m with
  | nil => simp [insertAssoc, lookupAssoc]
  | cons kv rest ih =>
    obtain ⟨k0, v0⟩ := kv
    by_cases h : k0 = k
    · simp [insertAssoc, lookupAssoc, h]
    · simp [insertAssoc, lookupAssoc, h, ih]

theorem lookup_insert_ne (m : List (String × String)) (k k2 v : String)
    (h : k ≠ k2) : lookupAssoc (insertAssoc m k v) k2 = lookupAssoc m k2 := by
  induction m with
  | nil => simp [insertAssoc, lookupAssoc, h]
  | cons kv rest ih =>
    obtain ⟨k0, v0⟩ := kv
    by_cases h0 : k0 = k
    · subst h0
      simp [insertAssoc, lookupAssoc, h]
    · simp [insertAssoc, lookupAssoc, h0, ih]

/-- The (stripped) key a parsed line would bind, when it has one. -/
def line_key (line : String) : Option String :=
  match split_once_colon line with
  | none => none
  | some (k, _) => some (pyStrip k)

theorem line_key_other (m : List (String × String)) (l2 K : String)
    (h : line_key l2 ≠ some K) :
    lookupAssoc (process_line m l2) K = lookupAssoc m K := by
  unfold process_line
  cases hs : split_once_colon l2 with
  | none => rfl
  | some kv =>
    obtain ⟨k, v⟩ := kv
    have hlk : line_key l2 = some (pyStrip k) := by
      unfold line_key
      rw [hs]
    rw [hlk] at h
    exact lookup_insert_ne _ _ _ _ (fun he => h (by rw [he]))

theorem foldl_keeps_other (post : List String) (K : String) :
    ∀ m, (∀ l2 ∈ post, line_key l2 ≠ some K) →
    lookupAssoc (post.foldl process_line m) K = lookupAssoc m K := by
  induction post with
  | nil => exact fun m _ => rfl
  | cons l rest ih =>
    intro m h
    rw [List.foldl_cons]
    rw [ih _ (fun x hx => h x (List.mem_cons_of_mem l hx))]
    exact line_key_other m l K (h l (List.mem_cons_self l rest))

/- ================================================================
   Claim theorems
   ================================================================ -/

/-- C1 (counterexample): for the title `"A/B: Test?"` the sanitizer does
NOT return `"A_B_Test"` — the space after the colon survives, because a
space is not in the replaced character class. -/
theorem safe_filename_ab_cex : safe_filename "A/B: Test?" ≠ "A_B_Test" := by
  decide

/-- C1 (amended): for the input title `"A/B: Test?"` the sanitizer
returns exactly `"A_B_ Test"`: every character of the unsafe class is
replaced by an underscore, runs of underscores are collapsed, leading
and trailing underscores are stripped, and other characters (including
the space) are preserved. -/
theorem safe_filename_ab : safe_filename "A/B: Test?" = "A_B_ Test" := by
  decide

/-- C2: the outline parser maps a line containing a separator to the
binding (first segment trimmed ↦ remainder trimmed), leaves the mapping
unchanged on a line with no separator, retains the last value of a
repeated key, and any response whose last `METHOD` line is
`"METHOD: uses X"` yields a mapping with `METHOD` bound to `"uses X"`. -/
theorem build_slide_structure_parsing (m : List (String × String))
    (line k v : String) (h : split_once_colon line = some (k, v)) :
    process_line m line = insertAssoc m (pyStrip k) (pyStrip v) ∧
    (∀ l2, split_once_colon l2 = none → process_line m l2 = m) ∧
    (∀ m2 k2 v2, lookupAssoc (insertAssoc m2 k2 v2) k2 = some v2) ∧
    (∀ pre post m2, (∀ l2 ∈ post, line_key l2 ≠ some "METHOD") →
      lookupAssoc (((pre ++ ["METHOD: uses X"]) ++ post).foldl process_line m2)
        "METHOD" = some "uses X") := by
  refine ⟨?_, ?_, ?_, ?_⟩
  · unfold process_line
    rw [h]
  · intro l2 h2
    unfold process_line
    rw [h2]
  · exact fun m2 k2 v2 => lookup_insert m2 k2 v2
  · intro pre post m2 hpost
    rw [List.foldl_append, foldl_keeps_other post "METHOD" _ hpost,
      List.foldl_append]
    show lookupAssoc (process_line (pre.foldl process_line m2) "METHOD: uses X")
      "METHOD" = some "uses X"
    have hm : process_line (pre.foldl process_line m2) "METHOD: uses X"
        = insertAssoc (pre.foldl process_line m2) "METHOD" "uses X" := rfl
    rw [hm]
    exact lookup_insert _ _ _

/-- C2 witness: concrete run of the parser on a three-line response whose
middle line is `"METHOD: uses X"`. -/
theorem build_slide_structure_parsing_witness :
    lookupAssoc (((["TITLE: t"] ++ ["METHOD: uses X"]) ++ ["RESULT: r"]).foldl
      process_line []) "METHOD" = some "uses X" :=
  (build_slide_structure_parsing [] "METHOD: uses X" "METHOD" " uses X"
    (by decide)).2.2.2 ["TITLE: t"] ["RESULT: r"] [] (by decide)

/-- C3: when the catalog has no exact name+style match, `voicevox_tts`
fails with the VoiceNotFound `RuntimeError` and performs no endpoint
call: its event trace is empty (neither `/audio_query` nor
`/synthesis` is hit). -/
theorem voicevox_tts_voice_not_found (catalog : List Speaker)
    (name style text filename : String) (speed : ℚ)
    (h : get_speaker_id catalog name style = none) :
    voicevox_tts catalog name style text filename speed
      = ([], Except.error "四国めたんが見つかりません") := by
  unfold voicevox_tts
  rw [h]

/-- C3 witness: a catalog holding the right speaker but only the wrong
style has no match, and the synthesizer fails without endpoint calls. -/
theorem voicevox_tts_voice_not_found_witness :
    voicevox_tts [⟨"四国めたん", [⟨"あまあま", 0⟩]⟩] "四国めたん" "ノーマル"
      "要約です" "narration_20260101.wav" (11 / 10 : ℚ)
      = ([], Except.error "四国めたんが見つかりません") :=
  voicevox_tts_voice_not_found _ _ _ _ _ _ (by decide)

/-- C4: for every input text (the empty string included) the summarizer
submits at most 5000 characters of the text (the prompt embeds
`truncate_input text`), and returns the service response stripped of
leading and trailing whitespace. -/
theorem summarize_text_ja_contract (gen : String → String) (text : String) :
    (truncate_input text).length ≤ 5000 ∧
    summarize_text_ja gen text = pyStrip (gen (summary_prompt (truncate_input text))) ∧
    is_stripped (summarize_text_ja gen text) = true := by
  refine ⟨?_, rfl, is_stripped_pyStrip _⟩
  unfold truncate_input
  by_cases h : text.length > 5000
  · rw [if_pos h]
    show (text.data.take 5000).length ≤ 5000
    rw [List.length_take]
    exact Nat.min_le_left _ _
  · rw [if_neg h]
    omega

theorem sum_map_const_four (l : List String) :
    (l.map (fun _ => (4 : Nat))).sum = l.length * 4 := by
  induction l with
  | nil => rfl
  | cons a t ih =>
    simp [ih]
    omega

/-- C6: with 5 slide paths and any audio duration, the assembled video
lasts 5 × 4 seconds — each slide clip gets a fixed 4-second duration,
audio length is irrelevant — and is written at 24 fps. -/
theorem generate_video_duration_fps (slide_paths : List String)
    (audioDuration : Nat) (out : String) (h : slide_paths.length = 5) :
    (generate_video slide_paths audioDuration out).duration = 5 * 4 ∧
    (generate_video slide_paths audioDuration out).fps = 24 := by
  refine ⟨?_, rfl⟩
  show (concatenate_videoclips
    (slide_paths.map (fun p => image_clip_with_duration p 4))).duration = 5 * 4
  unfold concatenate_videoclips image_clip_with_duration
  rw [List.map_map]
  show (slide_paths.map (fun _ => (4 : Nat))).sum = 5 * 4
  rw [sum_map_const_four, h]

/-- C6 witness: five concrete slide paths with a 999-second audio clip
still give a 20-second, 24 fps video. -/
theorem generate_video_duration_fps_witness :
    (generate_video ["outputs/TITLE.png", "outputs/PURPOSE.png",
      "outputs/METHOD.png", "outputs/RESULT.png", "outputs/CONCLUSION.png"]
      999 "outputs/paper_video_20260101.mp4").duration = 5 * 4 ∧
    (generate_video ["outputs/TITLE.png", "outputs/PURPOSE.png",
      "outputs/METHOD.png", "outputs/RESULT.png", "outputs/CONCLUSION.png"]
      999 "outputs/paper_video_20260101.mp4").fps = 24 :=
  generate_video_duration_fps _ _ _ (by decide)

/-- C7: when the feed returns no papers, the run ends in `noWork`
having reached no stage and written no file, and without an error. -/
theorem main_run_empty_feed (env : Env) :
    main_run [] env = (MainOutcome.noWork, [], []) := rfl

/-- C8: the extractor returns the empty string on absent input and on
any engine failure; its return type `String` (not an error monad)
reflects that the source catches every exception of its `try` block. -/
theorem extract_text_never_raises (engine : String → Except String (List String))
    (p e : String) (h : engine p = Except.error e) :
    extract_text none engine = "" ∧ extract_text (some p) engine = "" := by
  refine ⟨rfl, ?_⟩
  by_cases hp : p = ""
  · subst hp
    rfl
  · simp only [extract_text, if_neg hp, h]

/-- C8 witness: an engine failing on a concrete path. -/
theorem extract_text_never_raises_witness :
    extract_text none (fun _ => Except.error "broken pdf") = "" ∧
    extract_text (some "outputs/Paper.pdf") (fun _ => Except.error "broken pdf") = "" :=
  extract_text_never_raises (fun _ => Except.error "broken pdf")
    "outputs/Paper.pdf" "broken pdf" rfl

/- ================================================================
   Lemmas about main_run
   ================================================================ -/

/-- Whatever the services do, a run over a nonempty feed reaches the
summarization stage: nothing between download and narration aborts. -/
theorem summarization_stage_runs (entry : Paper) (rest : List Paper)
    (env : Env) :
    Stage.summarization ∈ (main_run (entry :: rest) env).2.1 := by
  simp only [main_run]
  split
  · simp
  · simp

/-- Every run over a nonempty feed writes the slide image of each
section key, at a path depending on the key alone. -/
theorem slide_path_mem_writes (entry : Paper) (rest : List Paper)
    (env : Env) (key : String) (hk : key ∈ section_keys) :
    slide_image_path key ∈ (main_run (entry :: rest) env).2.2 := by
  simp only [main_run]
  split
  · rw [List.map_map]
    exact List.mem_append_right _ (List.mem_map_of_mem _ hk)
  · rw [List.map_map]
    exact List.mem_append_left _
      (List.mem_append_right _ (List.mem_map_of_mem _ hk))

/- ================================================================
   Claim theorems (continued)
   ================================================================ -/

/-- C9: a failed transport makes `download_pdf` return the failure value
`none` instead of raising, extraction then degrades to the empty
string, and the run still reaches the summarization stage instead of
aborting. -/
theorem download_failure_degrades (env : Env) (entry : Paper)
    (rest : List Paper) (fn e : String)
    (h : env.transport (pdf_url_of entry) = Except.error e) :
    download_pdf env.transport (pdf_url_of entry) fn = none ∧
    extract_text (download_pdf env.transport (pdf_url_of entry) fn) env.engine = "" ∧
    Stage.summarization ∈ (main_run (entry :: rest) env).2.1 := by
  have h1 : download_pdf env.transport (pdf_url_of entry) fn = none := by
    unfold download_pdf
    rw [h]
  exact ⟨h1, by rw [h1]; rfl, summarization_stage_runs entry rest env⟩

/-- An environment whose document transport always fails. -/
def env_transport_down : Env :=
  { transport := fun _ => Except.error "timeout",
    engine := fun _ => Except.error "no such file",
    gen := fun _ => "",
    catalog := [],
    date := "20260101" }

/-- C9 witness: concrete failing transport, concrete entry. -/
theorem download_failure_degrades_witness :
    download_pdf env_transport_down.transport
      (pdf_url_of ⟨"Paper T", "http://arxiv.org/abs/1234.5678"⟩) "Paper T.pdf" = none ∧
    extract_text (download_pdf env_transport_down.transport
      (pdf_url_of ⟨"Paper T", "http://arxiv.org/abs/1234.5678"⟩) "Paper T.pdf")
      env_transport_down.engine = "" ∧
    Stage.summarization ∈
      (main_run [⟨"Paper T", "http://arxiv.org/abs/1234.5678"⟩] env_transport_down).2.1 :=
  download_failure_degrades env_transport_down
    ⟨"Paper T", "http://arxiv.org/abs/1234.5678"⟩ [] "Paper T.pdf" "timeout" rfl

/-- A second environment, differing from `env_transport_down` in its
date, for exhibiting two distinct runs. -/
def env_transport_down_later : Env :=
  { transport := fun _ => Except.error "timeout",
    engine := fun _ => Except.error "no such file",
    gen := fun _ => "",
    catalog := [],
    date := "20260102" }

/-- C5 (counterexample): two different runs — different paper, different
date — both write the very same slide path `"outputs/TITLE.png"`, so
pipeline write paths are not run-specific. -/
theorem slide_paths_not_run_specific :
    (Paper.mk "Paper A" "http://arxiv.org/abs/1111.0001"
      ≠ Paper.mk "Paper B" "http://arxiv.org/abs/2222.0002") ∧
    env_transport_down.date ≠ env_transport_down_later.date ∧
    "outputs/TITLE.png" ∈
      (main_run [Paper.mk "Paper A" "http://arxiv.org/abs/1111.0001"]
        env_transport_down).2.2 ∧
    "outputs/TITLE.png" ∈
      (main_run [Paper.mk "Paper B" "http://arxiv.org/abs/2222.0002"]
        env_transport_down_later).2.2 := by
  refine ⟨by decide, by decide, by decide, by decide⟩

/-- C5 (amended): slide image paths are fixed per section, not
run-specific: any two runs over nonempty feeds write the same five
`outputs/<KEY>.png` paths (narration/video paths vary only with the
date, the pdf path only with the sanitized title). -/
theorem slide_paths_fixed_across_runs (entry1 entry2 : Paper)
    (r1 r2 : List Paper) (env1 env2 : Env) (key : String)
    (hk : key ∈ section_keys) :
    slide_image_path key ∈ (main_run (entry1 :: r1) env1).2.2 ∧
    slide_image_path key ∈ (main_run (entry2 :: r2) env2).2.2 :=
  ⟨slide_path_mem_writes entry1 r1 env1 key hk,
   slide_path_mem_writes entry2 r2 env2 key hk⟩

/-- C5 witness: the two concrete runs of the counterexample, at key
`TITLE`. -/
theorem slide_paths_fixed_across_runs_witness :
    slide_image_path "TITLE" ∈
      (main_run [Paper.mk "Paper A" "http://arxiv.org/abs/1111.0001"]
        env_transport_down).2.2 ∧
    slide_image_path "TITLE" ∈
      (main_run [Paper.mk "Paper B" "http://arxiv.org/abs/2222.0002"]
        env_transport_down_later).2.2 :=
  slide_paths_fixed_across_runs _ _ _ _ _ _ "TITLE" (by decide)

/-- C10: `safe_filename` is idempotent — its output contains no
character of the replaced class, no doubled underscore, and no leading
or trailing underscore, so a second application changes nothing. -/
theorem safe_filename_idempotent (s : String) :
    safe_filename (safe_filename s) = safe_filename s := by
  show String.mk (strip_us (squeeze (replace_bad
    (strip_us (squeeze (replace_bad s.data)))))) = safe_filename s
  have hclean : replace_bad (strip_us (squeeze (replace_bad s.data)))
      = strip_us (squeeze (replace_bad s.data)) := by
    apply replace_bad_eq_self
    intro c hc
    have h1 : c ∈ squeeze (replace_bad s.data) := by
      unfold strip_us at hc
      exact mem_strip_ends _ _ _ hc
    exact mem_replace_bad c _ (mem_squeeze c _ h1)
  rw [hclean]
  have hch : List.Chain' no_uu (strip_us (squeeze (replace_bad s.data))) := by
    unfold strip_us
    exact chain'_strip_ends no_uu_symm _ _ (chain'_squeeze _)
  rw [squeeze_eq_of_chain' _ hch]
  show String.mk (strip_ends (fun c => c = '_')
    (strip_ends (fun c => c = '_') (squeeze (replace_bad s.data)))) = safe_filename s
  rw [strip_ends_idem]
  rfl
